import Mathlib

/-!
Shallow embedding of an NES emulator core (6502 CPU interrupt entry and
stack/status operations from cpu.cpp, the APU noise channel from
mapper.cpp, the MMC3 mapper, the iNES cartridge loader, the PPU register
file, and the system bus with OAM DMA from emulator.cpp), together with
theorems checking the specification claims about those parts.

Machine bytes are modelled as Nat values kept below 256 by explicit
masking exactly where the C++ code wraps; the CPU memory seen through
the bus is a plain function from the 16-bit address space to bytes.
All definitions come first, in dependency order, followed by the helper
lemmas and the claim theorems.
-/

namespace Nes

/-! ### CPU flag constants, from the Flags enum in cpu.hpp -/
def flagC : Nat := 1

def flagZ : Nat := 2

def flagI : Nat := 4

def flagD : Nat := 8

def flagB : Nat := 16

def flagU : Nat := 32

def flagV : Nat := 64

def flagN : Nat := 128

/-- CPU register file plus the memory seen through the bus.  The field
mem models the Bus cpu_read / cpu_write pair as a plain byte function,
which is how the CPU module observes the rest of the machine. -/
structure CPU where
  A : Nat
  X : Nat
  Y : Nat
  SP : Nat
  P : Nat
  PC : Nat
  cycles_remaining : Nat
  mem : Nat → Nat

namespace CPU

/-- CPU::set_flag from cpu.cpp: set or clear one status bit.  The C++
code clears with P &= ~flag on a uint8, which is masking with the
8-bit complement of the flag. -/
def set_flag (s : CPU) (flag : Nat) (value : Bool) : CPU :=
  if value then { s with P := s.P ||| flag } else { s with P := s.P &&& (255 ^^^ flag) }

/-- CPU::get_flag from cpu.cpp: (P & flag) != 0. -/
def get_flag (s : CPU) (flag : Nat) : Bool :=
  decide (s.P &&& flag ≠ 0)

/-- CPU::read delegates to Bus::cpu_read, modelled by the mem function. -/
def read (s : CPU) (addr : Nat) : Nat :=
  s.mem addr

/-- CPU::write delegates to Bus::cpu_write, modelled as a pointwise
update of the mem function. -/
def write (s : CPU) (addr data : Nat) : CPU :=
  { s with mem := fun x => if x = addr then data else s.mem x }

/-- CPU::push from cpu.cpp: write at 0x0100 + SP, then decrement the
8-bit stack pointer (wrapping). -/
def push (s : CPU) (data : Nat) : CPU :=
  let s1 := s.write (0x100 + s.SP) data
  { s1 with SP := (s1.SP + 255) % 256 }

/-- CPU::pop from cpu.cpp: increment the 8-bit stack pointer (wrapping),
then read at 0x0100 + SP.  Returns the new state and the byte read. -/
def pop (s : CPU) : CPU × Nat :=
  let sp := (s.SP + 1) % 256
  ({ s with SP := sp }, s.mem (0x100 + sp))

/-- CPU::push16 from cpu.cpp: push the high byte, then the low byte. -/
def push16 (s : CPU) (data : Nat) : CPU :=
  (s.push ((data >>> 8) &&& 255)).push (data &&& 255)

/-- CPU::irq from cpu.cpp: when the I flag is clear, push PC (high byte
then low byte), force B=0, U=1, I=1 in P, push P, load PC from the
vector at 0xFFFE/0xFFFF and charge 7 cycles; otherwise do nothing. -/
def irq (s : CPU) : CPU :=
  if s.get_flag flagI then s
  else
    let s1 := s.push16 s.PC
    let s2 := ((s1.set_flag flagB false).set_flag flagU true).set_flag flagI true
    let s3 := s2.push s2.P
    let lo := s3.read 0xFFFE
    let hi := s3.read 0xFFFF
    { s3 with PC := (hi <<< 8) ||| lo, cycles_remaining := 7 }

/-- CPU::nmi from cpu.cpp: push PC (high byte then low byte), force
B=0, U=1, I=1 in P, push P, load PC from the vector at 0xFFFA/0xFFFB
and charge 8 cycles. -/
def nmi (s : CPU) : CPU :=
  let s1 := s.push16 s.PC
  let s2 := ((s1.set_flag flagB false).set_flag flagU true).set_flag flagI true
  let s3 := s2.push s2.P
  let lo := s3.read 0xFFFA
  let hi := s3.read 0xFFFB
  { s3 with PC := (hi <<< 8) ||| lo, cycles_remaining := 8 }

/-- CPU::PHP from cpu.cpp: push P with the B and U bits forced to 1,
then clear B and U in the live status register. -/
def PHP (s : CPU) : CPU :=
  let s1 := s.push ((s.P ||| flagB) ||| flagU)
  (s1.set_flag flagB false).set_flag flagU false

/-- CPU::PLP from cpu.cpp: pull P from the stack, then force the U bit
to 1.  The B bit is left exactly as pulled. -/
def PLP (s : CPU) : CPU :=
  let s1 := s.pop
  ({ s1.1 with P := s1.2 }).set_flag flagU true

/-- CPU::ADC from cpu.cpp, after the operand fetch: 9-bit add of A, the
fetched byte and the carry in a uint16 temporary; C is set on overflow
past 255, Z on a zero low byte, V by the signed-overflow mask computed
on the 16-bit values, N from bit 7; A receives the low byte. -/
def ADC (s : CPU) (fetched : Nat) : CPU :=
  let temp := s.A + fetched + (if s.get_flag flagC then 1 else 0)
  let s1 := s.set_flag flagC (decide (255 < temp))
  let s2 := s1.set_flag flagZ (decide (temp &&& 255 = 0))
  let s3 := s2.set_flag flagV (decide ((((s.A ^^^ fetched) ^^^ 0xFFFF) &&& (s.A ^^^ temp)) &&& 0x80 ≠ 0))
  let s4 := s3.set_flag flagN (decide (temp &&& 0x80 ≠ 0))
  { s4 with A := temp &&& 255 }

end CPU

def cpu0 : CPU := ⟨0, 0, 0, 0xFD, 0x24, 0x8000, 0, fun _ => 0⟩

def cpu1 : CPU := ⟨0, 0, 0, 0xFD, 0x20, 0x8000, 0, fun _ => 0⟩

def cpuAdc50 : CPU := ⟨0x50, 0, 0, 0xFD, 0x24, 0x8000, 0, fun _ => 0⟩

def cpuAllFlags : CPU := ⟨0, 0, 0, 0xFD, 0xCF, 0x8000, 0, fun _ => 0⟩

/-! ### APU noise channel, from apu.hpp and APU::Noise::clock_timer /
APU::reset in mapper.cpp -/

/-- APU::Noise channel state, from apu.hpp. -/
structure Noise where
  enabled : Bool
  halt_length : Bool
  constant_volume : Bool
  volume : Nat
  mode : Bool
  timer_period : Nat
  timer_counter : Nat
  length_counter : Nat
  envelope_counter : Nat
  envelope_volume : Nat
  envelope_start : Bool
  shift_register : Nat
  output : Nat

/-- The LFSR update performed by APU::Noise::clock_timer in mapper.cpp
when the timer underflows: feedback is bit 0 xor bit 6 in mode 1 and
bit 0 xor bit 1 in mode 0; the register shifts right and the feedback
enters bit 14. -/
def lfsr_step (sr : Nat) (mode : Bool) : Nat :=
  let feedback := (sr &&& 1) ^^^ (if mode then (sr >>> 6) &&& 1 else (sr >>> 1) &&& 1)
  (sr >>> 1) ||| (feedback <<< 14)

namespace Noise

/-- APU::Noise::clock_timer from mapper.cpp: on timer underflow reload
the timer and step the LFSR, otherwise count down; then recompute the
channel output from bit 0 of the shift register and the gates. -/
def clock_timer (n : Noise) : Noise :=
  let n1 :=
    if n.timer_counter = 0 then
      { n with timer_counter := n.timer_period,
               shift_register := lfsr_step n.shift_register n.mode }
    else
      { n with timer_counter := n.timer_counter - 1 }
  if n1.enabled ∧ 0 < n1.length_counter ∧ n1.shift_register &&& 1 = 0 then
    { n1 with output := if n1.constant_volume then n1.volume else n1.envelope_volume }
  else
    { n1 with output := 0 }

end Noise

/-- The noise channel as initialised by APU::reset in mapper.cpp: the
struct is zero-initialised, enabled is false and the shift register is
seeded to 1. -/
def apuResetNoise : Noise :=
  { enabled := false, halt_length := false, constant_volume := false, volume := 0,
    mode := false, timer_period := 0, timer_counter := 0, length_counter := 0,
    envelope_counter := 0, envelope_volume := 0, envelope_start := false,
    shift_register := 1, output := 0 }

/-- Shift-register values reachable from the reset seed under any
sequence of LFSR steps (the only code that ever writes the noise shift
register is APU::reset and the update inside clock_timer). -/
inductive NoiseReachable : Nat → Prop
  | reset : NoiseReachable 1
  | step (sr : Nat) (mode : Bool) : NoiseReachable sr → NoiseReachable (lfsr_step sr mode)

/-! ### System bus, from Bus in bus.hpp and emulator.cpp.  The full
cpu_read/cpu_write dispatch to RAM, PPU and APU is abstracted by the
byte function cpu_mem; the controller ports at 0x4016/0x4017 and the
OAM DMA trigger at 0x4014, which the claims are about, are modelled
exactly.  Calls the bus makes into other chips are recorded: bytes sent
to the PPU OAM data port accumulate in oam_writes, and the counters
cpu_clocks and irq_calls count the invocations of cpu->clock() and
cpu->irq(). -/
structure Bus where
  system_clock_counter : Nat
  dma_transfer : Bool
  dma_dummy : Bool
  dma_page : Nat
  dma_addr : Nat
  dma_data : Nat
  controller_state0 : Nat
  controller_state1 : Nat
  controller_shift0 : Nat
  controller_shift1 : Nat
  cpu_mem : Nat → Nat
  oam_writes : List Nat
  cpu_clocks : Nat
  cart_irq : Bool
  irq_calls : Nat

namespace Bus

/-- Bus::cpu_read from emulator.cpp: a read of 0x4016 or 0x4017 returns
1 exactly when bit 7 of the controller shift register is set, then
shifts the 8-bit register left; every other address is served by the
abstracted memory function with no side effect. -/
def cpu_read (b : Bus) (addr : Nat) : Bus × Nat :=
  if addr = 0x4016 then
    ({ b with controller_shift0 := (b.controller_shift0 <<< 1) % 256 },
      if 0 < b.controller_shift0 &&& 0x80 then 1 else 0)
  else if addr = 0x4017 then
    ({ b with controller_shift1 := (b.controller_shift1 <<< 1) % 256 },
      if 0 < b.controller_shift1 &&& 0x80 then 1 else 0)
  else (b, b.cpu_mem addr)

/-- Bus::cpu_write from emulator.cpp: a write to 0x4014 latches the DMA
page, zeroes the DMA address and starts the transfer; a write to 0x4016
(whatever the data byte) reloads both controller shift registers from
the controller state; other targets are outside the modelled state. -/
def cpu_write (b : Bus) (addr data : Nat) : Bus :=
  if addr = 0x4014 then
    { b with dma_page := data, dma_addr := 0, dma_transfer := true }
  else if addr = 0x4016 then
    { b with controller_shift0 := b.controller_state0,
             controller_shift1 := b.controller_state1 }
  else b

/-- Bus::clock from emulator.cpp.  Every third system tick is a CPU
slot: during a DMA transfer the dummy phase waits for an odd tick, then
bytes are read on even ticks and written to the PPU OAM data port on
odd ticks, dma_addr wrapping at 256 ending the transfer; otherwise the
CPU is clocked.  The PPU and APU clocks do not touch the modelled
state and are omitted; the cartridge IRQ line is checked on every tick
and, when asserted, cleared and forwarded to cpu->irq(). -/
def clock (b : Bus) : Bus :=
  let b1 :=
    if b.system_clock_counter % 3 = 0 then
      if b.dma_transfer then
        if b.dma_dummy then
          if b.system_clock_counter % 2 = 1 then { b with dma_dummy := false } else b
        else
          if b.system_clock_counter % 2 = 0 then
            let rd := b.cpu_read ((b.dma_page <<< 8) ||| b.dma_addr)
            { rd.1 with dma_data := rd.2 }
          else
            let b2 := { b with oam_writes := b.oam_writes ++ [b.dma_data],
                               dma_addr := (b.dma_addr + 1) % 256 }
            if (b.dma_addr + 1) % 256 = 0 then
              { b2 with dma_transfer := false, dma_dummy := true }
            else b2
      else
        { b with cpu_clocks := b.cpu_clocks + 1 }
    else b
  let b3 :=
    if b1.cart_irq then { b1 with cart_irq := false, irq_calls := b1.irq_calls + 1 }
    else b1
  { b3 with system_clock_counter := b3.system_clock_counter + 1 }

/-- Iterated Bus::clock. -/
def clockN (b : Bus) : Nat → Bus
  | 0 => b
  | n + 1 => (b.clockN n).clock

end Bus

/-- A bus state with the cartridge IRQ line pending. -/
def busIrqPending : Bus :=
  { system_clock_counter := 0, dma_transfer := false, dma_dummy := true,
    dma_page := 0, dma_addr := 0, dma_data := 0,
    controller_state0 := 0, controller_state1 := 0,
    controller_shift0 := 0, controller_shift1 := 0,
    cpu_mem := fun _ => 0, oam_writes := [], cpu_clocks := 0,
    cart_irq := true, irq_calls := 0 }

/-- A bus state right after a write of page 2 to 0x4014 performed in
the CPU slot at system counter 0 (so the counter stands at 1). -/
def busDma : Bus :=
  { system_clock_counter := 1, dma_transfer := true, dma_dummy := true,
    dma_page := 2, dma_addr := 0, dma_data := 0,
    controller_state0 := 0, controller_state1 := 0,
    controller_shift0 := 0, controller_shift1 := 0,
    cpu_mem := fun a => a % 256, oam_writes := [], cpu_clocks := 0,
    cart_irq := false, irq_calls := 0 }

/-- A bus state whose first controller reports the A button held (bit 7
of the state byte) and nothing else. -/
def busA : Bus :=
  { system_clock_counter := 0, dma_transfer := false, dma_dummy := true,
    dma_page := 0, dma_addr := 0, dma_data := 0,
    controller_state0 := 0x80, controller_state1 := 0,
    controller_shift0 := 0, controller_shift1 := 0,
    cpu_mem := fun _ => 0, oam_writes := [], cpu_clocks := 0,
    cart_irq := false, irq_calls := 0 }

/-! ### Mapper 004 (MMC3), from mapper004.hpp and its implementation
file.  The uint8 arrays registers, chr_bank, prg_bank and the PRG RAM
are modelled as byte functions indexed by Nat. -/

/-- The Mapper::Mirror enumeration from mapper.hpp. -/
inductive Mirror where
  | HORIZONTAL
  | VERTICAL
  | ONESCREEN_LO
  | ONESCREEN_HI
  | FOUR_SCREEN
  deriving DecidableEq

/-- Mapper004 state, from mapper004.hpp (including the prg_banks and
chr_banks fields of the Mapper base class). -/
structure Mapper004 where
  target_register : Nat
  prg_bank_mode : Bool
  chr_inversion : Bool
  registers : Nat → Nat
  chr_bank : Nat → Nat
  prg_bank : Nat → Nat
  prg_ram : Nat → Nat
  prg_banks : Nat
  chr_banks : Nat
  irq_counter : Nat
  irq_latch : Nat
  irq_enable : Bool
  irq_active : Bool
  irq_reload : Bool
  mirror : Mirror

namespace Mapper004

/-- Mapper004::update_banks.  The fixed PRG slots hold the uint8
conversions of prg_banks*2-2 and prg_banks*2-1, written here as
(prg_banks*2+254) mod 256 and (prg_banks*2+255) mod 256, which agree
with the C++ int-to-uint8 conversion for every uint8 prg_banks. -/
def update_banks (m : Mapper004) : Mapper004 :=
  let chr := fun i =>
    if ¬ m.chr_inversion then
      if i = 0 then m.registers 0 &&& 0xFE
      else if i = 1 then m.registers 0 ||| 0x01
      else if i = 2 then m.registers 1 &&& 0xFE
      else if i = 3 then m.registers 1 ||| 0x01
      else if i = 4 then m.registers 2
      else if i = 5 then m.registers 3
      else if i = 6 then m.registers 4
      else if i = 7 then m.registers 5
      else m.chr_bank i
    else
      if i = 0 then m.registers 2
      else if i = 1 then m.registers 3
      else if i = 2 then m.registers 4
      else if i = 3 then m.registers 5
      else if i = 4 then m.registers 0 &&& 0xFE
      else if i = 5 then m.registers 0 ||| 0x01
      else if i = 6 then m.registers 1 &&& 0xFE
      else if i = 7 then m.registers 1 ||| 0x01
      else m.chr_bank i
  let prg := fun i =>
    if ¬ m.prg_bank_mode then
      if i = 0 then m.registers 6
      else if i = 1 then m.registers 7
      else if i = 2 then (m.prg_banks * 2 + 254) % 256
      else if i = 3 then (m.prg_banks * 2 + 255) % 256
      else m.prg_bank i
    else
      if i = 0 then (m.prg_banks * 2 + 254) % 256
      else if i = 1 then m.registers 7
      else if i = 2 then m.registers 6
      else if i = 3 then (m.prg_banks * 2 + 255) % 256
      else m.prg_bank i
  { m with chr_bank := chr, prg_bank := prg }

/-- The PRG ROM offset computed by Mapper004::cpu_read for an address
in 0x8000..0xFFFF: the selected 8 KiB bank is reduced modulo
prg_banks*2 before the offset is formed. -/
def prg_mapped_addr (m : Mapper004) (addr : Nat) : Nat :=
  let bank_idx := (addr - 0x8000) / 0x2000
  let bank := m.prg_bank bank_idx
  let total_8kb_banks := m.prg_banks * 2
  (bank % total_8kb_banks) * 0x2000 + (addr &&& 0x1FFF)

/-- Mapper004::cpu_read: PRG RAM in 0x6000..0x7FFF, banked PRG ROM in
0x8000..0xFFFF, none elsewhere. -/
def cpu_read (m : Mapper004) (addr : Nat) (prg_rom : Nat → Nat) : Option Nat :=
  if 0x6000 ≤ addr ∧ addr ≤ 0x7FFF then
    some (m.prg_ram (addr &&& 0x1FFF))
  else if 0x8000 ≤ addr ∧ addr ≤ 0xFFFF then
    some (prg_rom (m.prg_mapped_addr addr))
  else
    none

/-- Mapper004::scanline: reload the IRQ counter from the latch when the
reload flag is set or the counter is zero, decrement it otherwise, then
assert the IRQ when the counter is zero and the IRQ is enabled. -/
def scanline (m : Mapper004) : Mapper004 :=
  let m1 :=
    if m.irq_reload ∨ m.irq_counter = 0 then
      { m with irq_counter := m.irq_latch, irq_reload := false }
    else
      { m with irq_counter := m.irq_counter - 1 }
  if m1.irq_counter = 0 ∧ m1.irq_enable then { m1 with irq_active := true } else m1

/-- Mapper004::irq_state. -/
def irq_state (m : Mapper004) : Bool := m.irq_active

/-- Mapper004::irq_clear. -/
def irq_clear (m : Mapper004) : Mapper004 := { m with irq_active := false }

/-- Iterated scanline pulses. -/
def scanlineN (m : Mapper004) : Nat → Mapper004
  | 0 => m
  | j + 1 => (m.scanlineN j).scanline

end Mapper004

/-- A mapper-4 state with IRQ latch 0x10, IRQ enabled, counter 0, and
the reload flag clear, as in the MMC3 IRQ scenario of the spec. -/
def mmc3Irq16 : Mapper004 :=
  { target_register := 0, prg_bank_mode := false, chr_inversion := false,
    registers := fun _ => 0, chr_bank := fun _ => 0, prg_bank := fun _ => 0,
    prg_ram := fun _ => 0, prg_banks := 2, chr_banks := 1,
    irq_counter := 0, irq_latch := 0x10, irq_enable := true,
    irq_active := false, irq_reload := false, mirror := Mirror.HORIZONTAL }

/-- A mapper-4 state whose bank registers all point far past the end of
a 2-bank (32 KiB) PRG ROM. -/
def mmc3Wild : Mapper004 :=
  { mmc3Irq16 with prg_bank := fun _ => 0xC7 }

/-! ### PPU register file, from the PPU class in its header and the
cpu_read / cpu_write implementations.  The PPU address space behind
ppu_read/ppu_write (pattern tables, nametables, palette) is abstracted
by the byte function ppu_mem over the masked 14-bit address; the
bitfield unions control, status and the loopy registers are modelled
as raw byte / word values with their bit layouts spelled out. -/
structure PPU where
  control_reg : Nat
  mask_reg : Nat
  status_reg : Nat
  oam_addr : Nat
  data_buffer : Nat
  vram_addr : Nat
  tram_addr : Nat
  fine_x : Nat
  address_latch : Bool
  oam : Nat → Nat
  ppu_mem : Nat → Nat

namespace PPU

/-- PPU::cpu_read.  Register 2 (PPUSTATUS) returns the three flag bits
of status (bit 5 sprite overflow, bit 6 sprite-zero hit, bit 7 vblank)
over the low 5 bits of the internal read buffer, clears vblank and the
address latch; register 4 returns the OAM byte at oam_addr; register 7
returns the buffered byte, refills the buffer from ppu_read(v) and
increments v by 1 or 32, with the palette range bypassing the buffer;
the write-only registers read 0. -/
def cpu_read (p : PPU) (addr : Nat) : PPU × Nat :=
  let a := addr &&& 7
  if a = 2 then
    ({ p with status_reg := p.status_reg &&& 0x7F, address_latch := false },
      (p.status_reg &&& 0xE0) ||| (p.data_buffer &&& 0x1F))
  else if a = 4 then
    (p, p.oam p.oam_addr)
  else if a = 7 then
    let buf := p.ppu_mem (p.vram_addr &&& 0x3FFF)
    let data := if 0x3F00 ≤ p.vram_addr then buf else p.data_buffer
    ({ p with data_buffer := buf,
              vram_addr := (p.vram_addr
                + (if p.control_reg &&& 0x04 ≠ 0 then 32 else 1)) % 65536 },
      data)
  else (p, 0)

/-- PPU::cpu_write, with the loopy bitfield assignments written as
masked bit operations: coarse_x is bits 0-4 of t, coarse_y bits 5-9,
nametable_x bit 10, nametable_y bit 11, fine_y bits 12-14. -/
def cpu_write (p : PPU) (addr data : Nat) : PPU :=
  let a := addr &&& 7
  if a = 0 then
    let t1 := (p.tram_addr &&& (0xFFFF ^^^ (1 <<< 10))) ||| ((data &&& 1) <<< 10)
    let t2 := (t1 &&& (0xFFFF ^^^ (1 <<< 11))) ||| (((data >>> 1) &&& 1) <<< 11)
    { p with control_reg := data, tram_addr := t2 }
  else if a = 1 then
    { p with mask_reg := data }
  else if a = 3 then
    { p with oam_addr := data }
  else if a = 4 then
    { p with oam := fun x => if x = p.oam_addr then data else p.oam x,
             oam_addr := (p.oam_addr + 1) % 256 }
  else if a = 5 then
    if ¬ p.address_latch then
      { p with fine_x := data &&& 0x07,
               tram_addr := (p.tram_addr &&& (0xFFFF ^^^ 0x1F)) ||| ((data >>> 3) &&& 0x1F),
               address_latch := true }
    else
      let t1 := (p.tram_addr &&& (0xFFFF ^^^ (0x07 <<< 12))) ||| ((data &&& 0x07) <<< 12)
      let t2 := (t1 &&& (0xFFFF ^^^ (0x1F <<< 5))) ||| (((data >>> 3) &&& 0x1F) <<< 5)
      { p with tram_addr := t2, address_latch := false }
  else if a = 6 then
    if ¬ p.address_latch then
      { p with tram_addr := ((data &&& 0x3F) <<< 8) ||| (p.tram_addr &&& 0x00FF),
               address_latch := true }
    else
      let t := (p.tram_addr &&& 0xFF00) ||| data
      { p with tram_addr := t, vram_addr := t, address_latch := false }
  else if a = 7 then
    { p with ppu_mem := fun x => if x = p.vram_addr &&& 0x3FFF then data else p.ppu_mem x,
             vram_addr := (p.vram_addr
               + (if p.control_reg &&& 0x04 ≠ 0 then 32 else 1)) % 65536 }
  else p

end PPU

/-- The PPU register state established by PPU::reset. -/
def ppuReset : PPU :=
  { control_reg := 0, mask_reg := 0, status_reg := 0, oam_addr := 0,
    data_buffer := 0, vram_addr := 0, tram_addr := 0, fine_x := 0,
    address_latch := false, oam := fun _ => 0, ppu_mem := fun _ => 0 }

/-! ### iNES loading, from Cartridge::load_ines.  The byte vector of
the ROM file is a List Nat; the header fields are read with getD, which
matches the C++ indexing because the constructor only calls load_ines
once at least the 16 header bytes are present. -/

/-- The Cartridge fields that load_ines fills in. -/
structure CartridgeData where
  prg_banks : Nat
  chr_banks : Nat
  mapper_id : Nat
  mirror_mode : Mirror
  battery_backed : Bool
  prg_rom : List Nat
  chr_rom : List Nat
  prg_ram : List Nat

/-- Cartridge::load_ines.  PRG ROM larger than the file is an error
(none); CHR ROM larger than the remainder of the file is only a
warning: chr_size is clamped to the bytes that remain and the CHR store
is resized to that clamped size.  chr_banks = 0 selects 8 KiB of CHR
RAM instead. -/
def load_ines (data : List Nat) (dirty_header : Bool) : Option CartridgeData :=
  let prg_banks := data.getD 4 0
  let chr_banks := data.getD 5 0
  let mapper1 := data.getD 6 0 >>> 4
  let mapper2 := if dirty_header then 0 else data.getD 7 0 >>> 4
  let mapper_id := mapper1 ||| (mapper2 <<< 4)
  let mirror_mode :=
    if data.getD 6 0 &&& 0x08 ≠ 0 then Mirror.FOUR_SCREEN
    else if data.getD 6 0 &&& 0x01 ≠ 0 then Mirror.VERTICAL
    else Mirror.HORIZONTAL
  let battery_backed := decide (data.getD 6 0 &&& 0x02 ≠ 0)
  let offset := 16 + (if data.getD 6 0 &&& 0x04 ≠ 0 then 512 else 0)
  let prg_size := prg_banks * 16384
  if data.length < offset + prg_size then
    none
  else
    let prg_rom := (data.drop offset).take prg_size
    let offset2 := offset + prg_size
    let chr_rom :=
      if chr_banks = 0 then
        List.replicate 8192 0
      else
        let chr_size := chr_banks * 8192
        let chr_size2 :=
          if data.length < offset2 + chr_size then data.length - offset2 else chr_size
        (data.drop offset2).take chr_size2
    some { prg_banks := prg_banks, chr_banks := chr_banks, mapper_id := mapper_id,
           mirror_mode := mirror_mode, battery_backed := battery_backed,
           prg_rom := prg_rom, chr_rom := chr_rom,
           prg_ram := List.replicate 8192 0 }

/-- A 20-byte iNES image: valid header, 0 PRG banks, 1 declared CHR
bank (8 KiB), but only 4 bytes of CHR data in the file. -/
def inesShortChr : List Nat :=
  [0x4E, 0x45, 0x53, 0x1A, 0, 1, 0, 0, 0, 0, 0, 0, 0, 0, 0, 0,
   0xAA, 0xBB, 0xCC, 0xDD]

lemma sp_wrap_facts (sp : Nat) (h : sp < 256) : (sp + 255) % 256 ≠ sp ∧
    ((sp + 255) % 256 + 255) % 256 ≠ sp ∧
    ((sp + 255) % 256 + 255) % 256 ≠ (sp + 255) % 256 ∧
    ((sp + 255) % 256 + 1) % 256 = sp := by omega

set_option maxRecDepth 4096 in
lemma pushedP_bits : ∀ p < 256,
    ((((p &&& (255 ^^^ flagB)) ||| flagU) ||| flagI) &&& flagB = 0) ∧
    ((((p &&& (255 ^^^ flagB)) ||| flagU) ||| flagI) &&& flagU = flagU) ∧
    ((((p &&& (255 ^^^ flagB)) ||| flagU) ||| flagI) &&& flagI = flagI) := by decide

/-- Claim C1, amended: the NMI sequence charges 8 cycles (cpu.cpp sets
cycles_remaining = 8), not 7.  Everything else is as claimed: nmi pushes
PCH then PCL then the status byte with B forced to 0 and U forced to 1,
sets I, and loads PC from the vector at 0xFFFA/0xFFFB; irq called with
I=1 returns with no state change, and with I=0 performs the same
push/set sequence with the vector at 0xFFFE/0xFFFF, charging 7 cycles. -/
theorem C1_interrupt_entry (s : CPU) (hsp : s.SP < 256) (hp : s.P < 256) :
    ((s.nmi).mem (0x100 + s.SP) = (s.PC >>> 8) &&& 255
      ∧ (s.nmi).mem (0x100 + (s.SP + 255) % 256) = s.PC &&& 255
      ∧ (s.nmi).mem (0x100 + ((s.SP + 255) % 256 + 255) % 256)
          = ((s.P &&& (255 ^^^ flagB)) ||| flagU) ||| flagI
      ∧ (((s.P &&& (255 ^^^ flagB)) ||| flagU) ||| flagI) &&& flagB = 0
      ∧ (((s.P &&& (255 ^^^ flagB)) ||| flagU) ||| flagI) &&& flagU = flagU
      ∧ (s.nmi).P &&& flagI = flagI
      ∧ (s.nmi).PC = (s.mem 0xFFFB <<< 8) ||| s.mem 0xFFFA
      ∧ (s.nmi).cycles_remaining = 8)
    ∧ (s.P &&& flagI ≠ 0 → s.irq = s)
    ∧ (s.P &&& flagI = 0 →
        (s.irq).mem (0x100 + s.SP) = (s.PC >>> 8) &&& 255
        ∧ (s.irq).mem (0x100 + (s.SP + 255) % 256) = s.PC &&& 255
        ∧ (s.irq).mem (0x100 + ((s.SP + 255) % 256 + 255) % 256)
            = ((s.P &&& (255 ^^^ flagB)) ||| flagU) ||| flagI
        ∧ (s.irq).P &&& flagI = flagI
        ∧ (s.irq).PC = (s.mem 0xFFFF <<< 8) ||| s.mem 0xFFFE
        ∧ (s.irq).cycles_remaining = 7) := by
  have n1 : s.SP ≠ (s.SP + 255 + 255) % 256 := by omega
  have n2 : s.SP ≠ (s.SP + 255) % 256 := by omega
  have n3 : (s.SP + 255) % 256 ≠ (s.SP + 255 + 255) % 256 := by omega
  have n4 : ((s.SP + 255) % 256 + 255) % 256 = (s.SP + 255 + 255) % 256 := by omega
  have u1 : (0xFFFA : Nat) ≠ 256 + (s.SP + 255 + 255) % 256 := by omega
  have u2 : (0xFFFB : Nat) ≠ 256 + (s.SP + 255 + 255) % 256 := by omega
  have u3 : (0xFFFA : Nat) ≠ 256 + (s.SP + 255) % 256 := by omega
  have u4 : (0xFFFB : Nat) ≠ 256 + (s.SP + 255) % 256 := by omega
  have u5 : (0xFFFA : Nat) ≠ 256 + s.SP := by omega
  have u6 : (0xFFFB : Nat) ≠ 256 + s.SP := by omega
  have e1 : (0xFFFE : Nat) ≠ 256 + (s.SP + 255 + 255) % 256 := by omega
  have e2 : (0xFFFF : Nat) ≠ 256 + (s.SP + 255 + 255) % 256 := by omega
  have e3 : (0xFFFE : Nat) ≠ 256 + (s.SP + 255) % 256 := by omega
  have e4 : (0xFFFF : Nat) ≠ 256 + (s.SP + 255) % 256 := by omega
  have e5 : (0xFFFE : Nat) ≠ 256 + s.SP := by omega
  have e6 : (0xFFFF : Nat) ≠ 256 + s.SP := by omega
  refine ⟨⟨?_, ?_, ?_, (pushedP_bits s.P hp).1, (pushedP_bits s.P hp).2.1, ?_, ?_, ?_⟩,
      fun h => ?_, fun h => ?_⟩
  case refine_7 => simp [CPU.irq, CPU.get_flag, h]
  case refine_8 =>
    refine ⟨?_, ?_, ?_, ?_, ?_, ?_⟩ <;>
      simp [CPU.irq, CPU.get_flag, CPU.push16, CPU.push, CPU.write, CPU.set_flag,
        CPU.read, h, n4, n1, n2, n3, e1, e2, e3, e4, e5, e6, (pushedP_bits s.P hp).2.2]
  all_goals
    simp [CPU.nmi, CPU.push16, CPU.push, CPU.write, CPU.set_flag,
      CPU.read, n4, n1, n2, n3, u1, u2, u3, u4, u5, u6, (pushedP_bits s.P hp).2.2]

/-- Witness for C1 at concrete states: an NMI from cpu0 charges 8
cycles, an IRQ with I set leaves cpu0 unchanged, and an IRQ with I
clear charges 7 cycles. -/
theorem C1_interrupt_entry_witness :
    (cpu0.nmi).cycles_remaining = 8 ∧ cpu0.irq = cpu0 ∧ (cpu1.irq).cycles_remaining = 7 :=
  ⟨(C1_interrupt_entry cpu0 (by decide) (by decide)).1.2.2.2.2.2.2.2,
   (C1_interrupt_entry cpu0 (by decide) (by decide)).2.1 (by decide),
   ((C1_interrupt_entry cpu1 (by decide) (by decide)).2.2 (by decide)).2.2.2.2.2⟩

/-- Counterexample to C1 as stated: the code charges 8 cycles for the
NMI entry sequence, not 7. -/
theorem C1_counterexample : ¬ (cpu0.nmi).cycles_remaining = 7 := by
  simp [cpu0, CPU.nmi, CPU.push16, CPU.push, CPU.write, CPU.set_flag, CPU.read]

set_option maxRecDepth 4096 in
lemma php_plp_bits : ∀ p < 256,
    (((p ||| flagB) ||| flagU) ||| flagU) &&& flagC = p &&& flagC ∧
    (((p ||| flagB) ||| flagU) ||| flagU) &&& flagZ = p &&& flagZ ∧
    (((p ||| flagB) ||| flagU) ||| flagU) &&& flagI = p &&& flagI ∧
    (((p ||| flagB) ||| flagU) ||| flagU) &&& flagD = p &&& flagD ∧
    (((p ||| flagB) ||| flagU) ||| flagU) &&& flagV = p &&& flagV ∧
    (((p ||| flagB) ||| flagU) ||| flagU) &&& flagN = p &&& flagN ∧
    (((p ||| flagB) ||| flagU) ||| flagU) &&& flagB = flagB ∧
    (((p ||| flagB) ||| flagU) ||| flagU) &&& flagU = flagU := by decide

/-- Claim C2, amended: PHP followed by PLP preserves C, Z, I, D, V and
N, and afterwards U is observed 1 — but B is observed 1, not 0: PHP
pushes P with B forced to 1 and PLP restores the pulled byte without
clearing B. -/
theorem C2_php_plp_roundtrip (s : CPU) (hp : s.P < 256) (hsp : s.SP < 256) :
    ((s.PHP).PLP).P &&& flagC = s.P &&& flagC
    ∧ ((s.PHP).PLP).P &&& flagZ = s.P &&& flagZ
    ∧ ((s.PHP).PLP).P &&& flagI = s.P &&& flagI
    ∧ ((s.PHP).PLP).P &&& flagD = s.P &&& flagD
    ∧ ((s.PHP).PLP).P &&& flagV = s.P &&& flagV
    ∧ ((s.PHP).PLP).P &&& flagN = s.P &&& flagN
    ∧ ((s.PHP).PLP).P &&& flagB = flagB
    ∧ ((s.PHP).PLP).P &&& flagU = flagU
    ∧ ((s.PHP).PLP).SP = s.SP := by
  have n1 : (s.SP + 255 + 1) % 256 = s.SP := by omega
  have h := php_plp_bits s.P hp
  refine ⟨?_, ?_, ?_, ?_, ?_, ?_, ?_, ?_, ?_⟩ <;>
    simp [CPU.PHP, CPU.PLP, CPU.pop, CPU.push, CPU.write, CPU.set_flag, n1,
      h.1, h.2.1, h.2.2.1, h.2.2.2.1, h.2.2.2.2.1, h.2.2.2.2.2.1,
      h.2.2.2.2.2.2.1, h.2.2.2.2.2.2.2]

/-- Witness for C2 at a concrete state with all of C, Z, I, D, V, N set. -/
theorem C2_php_plp_roundtrip_witness :
    ((cpuAllFlags.PHP).PLP).P &&& flagN = cpuAllFlags.P &&& flagN
    ∧ ((cpuAllFlags.PHP).PLP).P &&& flagB = flagB
    ∧ ((cpuAllFlags.PHP).PLP).SP = cpuAllFlags.SP :=
  ⟨(C2_php_plp_roundtrip cpuAllFlags (by decide) (by decide)).2.2.2.2.2.1,
   (C2_php_plp_roundtrip cpuAllFlags (by decide) (by decide)).2.2.2.2.2.2.1,
   (C2_php_plp_roundtrip cpuAllFlags (by decide) (by decide)).2.2.2.2.2.2.2.2⟩

/-- Counterexample to C2 as stated: starting from status 0, after PHP
then PLP the B flag is observed 1 (bit 4 of P is set), not 0. -/
theorem C2_counterexample : ¬ ((cpu0.PHP).PLP).P &&& flagB = 0 := by
  simp [cpu0, CPU.PHP, CPU.PLP, CPU.pop, CPU.push, CPU.write, CPU.set_flag, flagB, flagU]

lemma or_ne_zero_left (x y : Nat) (hx : x ≠ 0) : x ||| y ≠ 0 := by
  intro h
  obtain ⟨i, hi, _⟩ := Nat.exists_most_significant_bit hx
  have ht := Nat.testBit_lor x y i
  rw [h] at ht
  simp [Nat.zero_testBit, hi] at ht

lemma lfsr_step_ne_zero (sr : Nat) (m : Bool) (h : sr ≠ 0) : lfsr_step sr m ≠ 0 := by
  by_cases h2 : 2 ≤ sr
  · have hs : sr >>> 1 ≠ 0 := by
      simp only [Nat.shiftRight_eq_div_pow, pow_one]
      omega
    exact or_ne_zero_left _ _ hs
  · have h1 : sr = 1 := by omega
    subst h1
    cases m <;> decide

lemma clock_timer_shift_register (n : Noise) :
    (n.clock_timer).shift_register
      = if n.timer_counter = 0 then lfsr_step n.shift_register n.mode
        else n.shift_register := by
  by_cases h : n.timer_counter = 0 <;>
    simp [Noise.clock_timer, h] <;> split <;> rfl

/-- Claim C9: the noise LFSR is never zero.  Reset seeds it to 1, one
clock_timer step maps every state with a non-zero shift register to a
state with a non-zero shift register, and every reachable
shift-register value is non-zero. -/
theorem C9_noise_lfsr_nonzero :
    apuResetNoise.shift_register = 1
    ∧ (∀ n : Noise, n.shift_register ≠ 0 → (n.clock_timer).shift_register ≠ 0)
    ∧ (∀ sr : Nat, NoiseReachable sr → sr ≠ 0) := by
  refine ⟨rfl, fun n hn => ?_, fun sr hr => ?_⟩
  · rw [clock_timer_shift_register]
    by_cases h : n.timer_counter = 0
    · simpa [h] using lfsr_step_ne_zero n.shift_register n.mode hn
    · simpa [h] using hn
  · induction hr with
    | reset => decide
    | step sr m _ ih => exact lfsr_step_ne_zero sr m ih

/-- Witness for C9 at concrete inputs: one timer-underflow step from
the reset state keeps the shift register non-zero, and the seed value 1
is a reachable non-zero value. -/
theorem C9_noise_lfsr_nonzero_witness :
    (apuResetNoise.clock_timer).shift_register ≠ 0 ∧ (1 : Nat) ≠ 0 :=
  ⟨C9_noise_lfsr_nonzero.2.1 apuResetNoise (by decide),
   C9_noise_lfsr_nonzero.2.2 1 NoiseReachable.reset⟩

lemma decide_and_flag (x f i : Nat) (hf : f = 2 ^ i) : decide (x &&& f ≠ 0) = x.testBit i := by
  subst hf
  rw [Nat.and_two_pow]
  cases h : x.testBit i <;>
    simp [h, Nat.pos_iff_ne_zero.mp (Nat.two_pow_pos i)]

lemma testBit_255 (i : Nat) : Nat.testBit 255 i = decide (i < 8) := by
  rw [show (255 : Nat) = 2 ^ 8 - 1 from rfl, Nat.testBit_two_pow_sub_one]

lemma testBit_set_flag (s : CPU) (f j : Nat) (hf : f = 2 ^ j) (v : Bool) (i : Nat)
    (hi : i < 8) : ((s.set_flag f v).P).testBit i = if i = j then v else s.P.testBit i := by
  subst hf
  by_cases hij : i = j
  · subst hij
    cases v <;>
      simp [CPU.set_flag, Nat.testBit_lor, Nat.testBit_land, Nat.testBit_xor,
        Nat.testBit_two_pow_self, testBit_255, hi]
  · cases v <;>
      simp [CPU.set_flag, Nat.testBit_lor, Nat.testBit_land, Nat.testBit_xor,
        testBit_255, hi, Nat.testBit_two_pow, hij, Ne.symm hij]

lemma v_formula_bridge (a f t : Nat) :
    ((((a ^^^ f) ^^^ 0xFFFF) &&& (a ^^^ t)) &&& 0x80 ≠ 0) ↔
      ((((a ^^^ f) ^^^ 0xFF) &&& (a ^^^ t % 256)) &&& 0x80 ≠ 0) := by
  have h1 : decide ((((a ^^^ f) ^^^ 0xFFFF) &&& (a ^^^ t)) &&& 0x80 ≠ 0)
      = ((((a ^^^ f) ^^^ 0xFFFF) &&& (a ^^^ t))).testBit 7 := decide_and_flag _ _ 7 rfl
  have h2 : decide ((((a ^^^ f) ^^^ 0xFF) &&& (a ^^^ t % 256)) &&& 0x80 ≠ 0)
      = ((((a ^^^ f) ^^^ 0xFF) &&& (a ^^^ t % 256))).testBit 7 := decide_and_flag _ _ 7 rfl
  have hm : (t % 256).testBit 7 = t.testBit 7 := by
    rw [show (256 : Nat) = 2 ^ 8 from rfl, Nat.testBit_mod_two_pow]
    simp
  have hb : ((((a ^^^ f) ^^^ 0xFFFF) &&& (a ^^^ t))).testBit 7
      = ((((a ^^^ f) ^^^ 0xFF) &&& (a ^^^ t % 256))).testBit 7 := by
    simp [Nat.testBit_land, Nat.testBit_xor, hm,
      (by decide : Nat.testBit 0xFFFF 7 = true), (by decide : Nat.testBit 0xFF 7 = true)]
  rw [← decide_eq_decide, h1, h2, hb]

/-- Claim C7: ADC with A=0x50, M=0x50, C=0 gives A=0xA0 with N=1, V=1,
Z=0, C=0, and for every state and operand the resulting V flag matches
the signed-overflow mask of the 9-bit add, computed on the 8-bit
result. -/
theorem C7_adc_overflow :
    ((cpuAdc50.ADC 0x50).A = 0xA0
      ∧ (cpuAdc50.ADC 0x50).get_flag flagN = true
      ∧ (cpuAdc50.ADC 0x50).get_flag flagV = true
      ∧ (cpuAdc50.ADC 0x50).get_flag flagZ = false
      ∧ (cpuAdc50.ADC 0x50).get_flag flagC = false)
    ∧ ∀ (s : CPU) (f : Nat),
        (s.ADC f).get_flag flagV
          = decide ((((s.A ^^^ f) ^^^ 0xFF)
              &&& (s.A ^^^ (s.A + f + (if s.get_flag flagC then 1 else 0)) % 256))
              &&& 0x80 ≠ 0) := by
  have hV : flagV = 2 ^ 6 := rfl
  have hN : flagN = 2 ^ 7 := rfl
  refine ⟨by decide, fun s f => ?_⟩
  simp only [CPU.ADC, CPU.get_flag]
  rw [decide_and_flag _ _ 6 hV]
  rw [testBit_set_flag _ _ _ hN _ 6 (by omega), if_neg (by omega)]
  rw [testBit_set_flag _ _ _ hV _ 6 (by omega), if_pos rfl]
  exact decide_eq_decide.mpr (v_formula_bridge _ _ _)

lemma shiftLeft8_or_eq_add (p a : Nat) (h : a < 256) : p <<< 8 ||| a = p * 256 + a := by
  have h256 : (256 : Nat) = 2 ^ 8 := rfl
  apply Nat.eq_of_testBit_eq
  intro j
  have hmul : (2 ^ 8 * p + a).testBit j
      = if j < 8 then a.testBit j else p.testBit (j - 8) :=
    Nat.testBit_mul_pow_two_add p (by omega) j
  rw [h256, Nat.mul_comm, hmul, Nat.testBit_lor, Nat.testBit_shiftLeft]
  by_cases hj : j < 8
  · have ha : ¬ (j ≥ 8) := by omega
    simp [hj, ha]
  · have hfalse : a.testBit j = false := by
      apply Nat.testBit_lt_two_pow
      calc a < 2 ^ 8 := by omega
      _ ≤ 2 ^ j := Nat.pow_le_pow_right (by omega) (by omega)
    simp [hj, hfalse, (by omega : j ≥ 8)]

namespace Bus

lemma clock_idle (b : Bus) (h3 : b.system_clock_counter % 3 ≠ 0) (hirq : b.cart_irq = false) :
    b.clock = { b with system_clock_counter := b.system_clock_counter + 1 } := by
  simp [Bus.clock, h3, hirq]

lemma clock_cpu (b : Bus) (h3 : b.system_clock_counter % 3 = 0)
    (ht : b.dma_transfer = false) (hirq : b.cart_irq = false) :
    b.clock = { b with cpu_clocks := b.cpu_clocks + 1,
                       system_clock_counter := b.system_clock_counter + 1 } := by
  simp [Bus.clock, h3, ht, hirq]

lemma clock_dummy_wait (b : Bus) (h3 : b.system_clock_counter % 3 = 0)
    (h2 : b.system_clock_counter % 2 = 0) (ht : b.dma_transfer = true)
    (hd : b.dma_dummy = true) (hirq : b.cart_irq = false) :
    b.clock = { b with system_clock_counter := b.system_clock_counter + 1 } := by
  simp [Bus.clock, h3, h2, ht, hd, hirq]

lemma clock_dummy_clear (b : Bus) (h3 : b.system_clock_counter % 3 = 0)
    (h2 : b.system_clock_counter % 2 = 1) (ht : b.dma_transfer = true)
    (hd : b.dma_dummy = true) (hirq : b.cart_irq = false) :
    b.clock = { b with dma_dummy := false,
                       system_clock_counter := b.system_clock_counter + 1 } := by
  simp [Bus.clock, h3, h2, ht, hd, hirq]

lemma clock_dma_read (b : Bus) (h3 : b.system_clock_counter % 3 = 0)
    (h2 : b.system_clock_counter % 2 = 0) (ht : b.dma_transfer = true)
    (hd : b.dma_dummy = false) (hirq : b.cart_irq = false)
    (hne16 : (b.dma_page <<< 8) ||| b.dma_addr ≠ 0x4016)
    (hne17 : (b.dma_page <<< 8) ||| b.dma_addr ≠ 0x4017) :
    b.clock = { b with dma_data := b.cpu_mem ((b.dma_page <<< 8) ||| b.dma_addr),
                       system_clock_counter := b.system_clock_counter + 1 } := by
  simp [Bus.clock, Bus.cpu_read, h3, h2, ht, hd, hirq, hne16, hne17]

lemma clock_dma_write_mid (b : Bus) (h3 : b.system_clock_counter % 3 = 0)
    (h2 : b.system_clock_counter % 2 = 1) (ht : b.dma_transfer = true)
    (hd : b.dma_dummy = false) (hirq : b.cart_irq = false)
    (hw : (b.dma_addr + 1) % 256 ≠ 0) :
    b.clock = { b with oam_writes := b.oam_writes ++ [b.dma_data],
                       dma_addr := (b.dma_addr + 1) % 256,
                       system_clock_counter := b.system_clock_counter + 1 } := by
  simp [Bus.clock, h3, h2, ht, hd, hirq, hw]

lemma clock_dma_write_last (b : Bus) (h3 : b.system_clock_counter % 3 = 0)
    (h2 : b.system_clock_counter % 2 = 1) (ht : b.dma_transfer = true)
    (hd : b.dma_dummy = false) (hirq : b.cart_irq = false)
    (hw : (b.dma_addr + 1) % 256 = 0) :
    b.clock = { b with oam_writes := b.oam_writes ++ [b.dma_data],
                       dma_addr := 0, dma_transfer := false, dma_dummy := true,
                       system_clock_counter := b.system_clock_counter + 1 } := by
  simp [Bus.clock, h3, h2, ht, hd, hirq, hw]

lemma dma_byte_block (b : Bus) (hc : b.system_clock_counter % 6 = 0)
    (ht : b.dma_transfer = true) (hd : b.dma_dummy = false) (hirq : b.cart_irq = false)
    (hne16 : (b.dma_page <<< 8) ||| b.dma_addr ≠ 0x4016)
    (hne17 : (b.dma_page <<< 8) ||| b.dma_addr ≠ 0x4017) :
    b.clockN 6 =
      if (b.dma_addr + 1) % 256 = 0 then
        { b with system_clock_counter := b.system_clock_counter + 6,
                 dma_addr := 0, dma_transfer := false, dma_dummy := true,
                 dma_data := b.cpu_mem ((b.dma_page <<< 8) ||| b.dma_addr),
                 oam_writes := b.oam_writes ++ [b.cpu_mem ((b.dma_page <<< 8) ||| b.dma_addr)] }
      else
        { b with system_clock_counter := b.system_clock_counter + 6,
                 dma_addr := (b.dma_addr + 1) % 256,
                 dma_data := b.cpu_mem ((b.dma_page <<< 8) ||| b.dma_addr),
                 oam_writes := b.oam_writes ++ [b.cpu_mem ((b.dma_page <<< 8) ||| b.dma_addr)] } := by
  have e0 : b.system_clock_counter % 3 = 0 := by omega
  have e0b : b.system_clock_counter % 2 = 0 := by omega
  have e1 : (b.system_clock_counter + 1) % 3 = 1 := by omega
  have e2 : (b.system_clock_counter + 1 + 1) % 3 = 2 := by omega
  have e3 : (b.system_clock_counter + 1 + 1 + 1) % 3 = 0 := by omega
  have e3b : (b.system_clock_counter + 1 + 1 + 1) % 2 = 1 := by omega
  have e4 : (b.system_clock_counter + 1 + 1 + 1 + 1) % 3 = 1 := by omega
  have e5 : (b.system_clock_counter + 1 + 1 + 1 + 1 + 1) % 3 = 2 := by omega
  have hun : b.clockN 6 = (((((b.clock).clock).clock).clock).clock).clock := rfl
  by_cases hw : (b.dma_addr + 1) % 256 = 0
  · rw [hun, if_pos hw]
    simp [Bus.clock, Bus.cpu_read, ht, hd, hirq, hne16, hne17,
      e0, e0b, e1, e2, e3, e3b, e4, e5, hw]
  · rw [hun, if_neg hw]
    simp [Bus.clock, Bus.cpu_read, ht, hd, hirq, hne16, hne17,
      e0, e0b, e1, e2, e3, e3b, e4, e5, hw]

lemma clockN_add (b : Bus) (m n : Nat) : b.clockN (m + n) = (b.clockN m).clockN n := by
  induction n with
  | zero => rfl
  | succ n ih => rw [← Nat.add_assoc, Bus.clockN, ih, Bus.clockN]

lemma dma_page_ne_controller (p a : Nat) (ha : a < 256) (hp : p ≠ 0x40) :
    (p <<< 8) ||| a ≠ 0x4016 ∧ (p <<< 8) ||| a ≠ 0x4017 := by
  rw [shiftLeft8_or_eq_add p a ha]
  omega

lemma dma_run (j : Nat) : ∀ b : Bus, 0 < j → b.dma_addr + j = 256 →
    b.system_clock_counter % 6 = 0 → b.dma_transfer = true → b.dma_dummy = false →
    b.cart_irq = false → b.dma_page ≠ 0x40 →
    b.clockN (6 * j) =
      { b with system_clock_counter := b.system_clock_counter + 6 * j,
               dma_addr := 0, dma_transfer := false, dma_dummy := true,
               dma_data := b.cpu_mem ((b.dma_page <<< 8) ||| 255),
               oam_writes := b.oam_writes ++ (List.range j).map
                 (fun t => b.cpu_mem ((b.dma_page <<< 8) ||| (b.dma_addr + t))) } := by
  induction j with
  | zero => intro b h0; omega
  | succ j ih =>
    intro b hpos haddr hc ht hd hirq hp40
    have haddrlt : b.dma_addr < 256 := by omega
    obtain ⟨hne16, hne17⟩ := dma_page_ne_controller b.dma_page b.dma_addr haddrlt hp40
    have hblock := dma_byte_block b hc ht hd hirq hne16 hne17
    rcases Nat.eq_zero_or_pos j with hj0 | hjpos
    · subst hj0
      have haddr255 : b.dma_addr = 255 := by omega
      have hw : (b.dma_addr + 1) % 256 = 0 := by omega
      rw [show 6 * 1 = 6 from rfl, hblock, if_pos hw]
      simp [haddr255, List.range_succ]
    · have hw : ¬ (b.dma_addr + 1) % 256 = 0 := by omega
      have hstep : (6 : Nat) * (j + 1) = 6 + 6 * j := by omega
      rw [hstep, clockN_add, hblock, if_neg hw]
      have hmod : (b.dma_addr + 1) % 256 = b.dma_addr + 1 := by omega
      rw [ih _ hjpos (by simp [hmod]; omega) (by simp; omega) (by simp [ht])
        (by simp [hd]) (by simp [hirq]) (by simp [hp40])]
      simp only [hmod]
      congr 1
      · omega
      · rw [List.append_assoc]
        congr 1
        rw [List.range_succ_eq_map, List.map_cons, List.map_map, List.singleton_append]
        congr 1
        all_goals simp [Function.comp, Nat.add_assoc, Nat.add_comm, Nat.add_left_comm]

lemma dma_prefix_even (b : Bus) (k : Nat) (hk : k % 2 = 0)
    (hc : b.system_clock_counter = 3 * k + 1) (ht : b.dma_transfer = true)
    (hd : b.dma_dummy = true) (hirq : b.cart_irq = false) :
    b.clockN 5 = { b with dma_dummy := false,
                          system_clock_counter := b.system_clock_counter + 5 } := by
  have e0 : (3 * k + 1) % 3 = 1 := by omega
  have e1 : (3 * k + 1 + 1) % 3 = 2 := by omega
  have e2 : (3 * k + 1 + 1 + 1) % 3 = 0 := by omega
  have e2b : (3 * k + 1 + 1 + 1) % 2 = 1 := by omega
  have e3 : (3 * k + 1 + 1 + 1 + 1) % 3 = 1 := by omega
  have e4 : (3 * k + 1 + 1 + 1 + 1 + 1) % 3 = 2 := by omega
  have hun : b.clockN 5 = ((((b.clock).clock).clock).clock).clock := rfl
  rw [hun]
  simp [Bus.clock, hc, ht, hd, hirq, e0, e1, e2, e2b, e3, e4]

lemma dma_prefix_odd (b : Bus) (k : Nat) (hk : k % 2 = 1)
    (hc : b.system_clock_counter = 3 * k + 1) (ht : b.dma_transfer = true)
    (hd : b.dma_dummy = true) (hirq : b.cart_irq = false) :
    b.clockN 8 = { b with dma_dummy := false,
                          system_clock_counter := b.system_clock_counter + 8 } := by
  have e0 : (3 * k + 1) % 3 = 1 := by omega
  have e1 : (3 * k + 1 + 1) % 3 = 2 := by omega
  have e2 : (3 * k + 1 + 1 + 1) % 3 = 0 := by omega
  have e2b : (3 * k + 1 + 1 + 1) % 2 = 0 := by omega
  have e3 : (3 * k + 1 + 1 + 1 + 1) % 3 = 1 := by omega
  have e4 : (3 * k + 1 + 1 + 1 + 1 + 1) % 3 = 2 := by omega
  have e5 : (3 * k + 1 + 1 + 1 + 1 + 1 + 1) % 3 = 0 := by omega
  have e5b : (3 * k + 1 + 1 + 1 + 1 + 1 + 1) % 2 = 1 := by omega
  have e6 : (3 * k + 1 + 1 + 1 + 1 + 1 + 1 + 1) % 3 = 1 := by omega
  have e7 : (3 * k + 1 + 1 + 1 + 1 + 1 + 1 + 1 + 1) % 3 = 2 := by omega
  have hun : b.clockN 8 = (((((((b.clock).clock).clock).clock).clock).clock).clock).clock := rfl
  rw [hun]
  simp [Bus.clock, hc, ht, hd, hirq, e0, e1, e2, e2b, e3, e4, e5, e5b, e6, e7]

set_option maxRecDepth 100000 in
/-- Claim C3: a write of page P to 0x4014 starts an OAM DMA.  Counting
CPU cycles from the slot in which the write landed (system counter
3k+1 right after that slot), the bus then copies exactly the 256 bytes
at CPU addresses (P shl 8) .. (P shl 8)+255, in order, to the PPU OAM
data port; the CPU is never clocked during the window, which spans 513
CPU slots when the write happened on an even CPU cycle k and 514 when
k is odd, and the very next CPU slot after the window clocks the CPU
again. -/
theorem C3_oam_dma (b : Bus) (k n : Nat)
    (hn : n = if k % 2 = 0 then 1541 else 1544)
    (hc : b.system_clock_counter = 3 * k + 1)
    (ht : b.dma_transfer = true) (hd : b.dma_dummy = true) (ha : b.dma_addr = 0)
    (hirq : b.cart_irq = false) (hp40 : b.dma_page ≠ 0x40) :
    (b.clockN n).dma_transfer = false
    ∧ (b.clockN n).oam_writes
        = b.oam_writes
          ++ (List.range 256).map (fun i => b.cpu_mem ((b.dma_page <<< 8) ||| i))
    ∧ (b.clockN n).cpu_clocks = b.cpu_clocks
    ∧ (b.clockN (n + 1)).cpu_clocks = b.cpu_clocks + 1
    ∧ ((List.range n).filter (fun t => (3 * k + 1 + t) % 3 == 0)).length
        = (if k % 2 = 0 then 513 else 514) := by
  have hfc : ∀ m : Nat, ((List.range m).filter (fun t => (3 * k + 1 + t) % 3 == 0))
      = ((List.range m).filter (fun t => (t + 1) % 3 == 0)) := by
    intro m
    apply List.filter_congr
    intro t _
    rw [show (3 * k + 1 + t) % 3 = (t + 1) % 3 from by omega]
  by_cases hk : k % 2 = 0
  · have hn' : n = 1541 := by rw [hn, if_pos hk]
    subst hn'
    have hcomp : b.clockN 1541 = (b.clockN 5).clockN 1536 := by
      rw [← clockN_add]
    have hpre := dma_prefix_even b k hk hc ht hd hirq
    have hrun := dma_run 256 ((b.clockN 5)) (by omega)
      (by rw [hpre]; simp [ha]) (by rw [hpre]; simp [hc]; omega)
      (by rw [hpre]; simp [ht]) (by rw [hpre])
      (by rw [hpre]; simp [hirq]) (by rw [hpre]; simp [hp40])
    have hfin : b.clockN 1541 =
        { b with dma_dummy := true, dma_transfer := false, dma_addr := 0,
                 dma_data := b.cpu_mem ((b.dma_page <<< 8) ||| 255),
                 system_clock_counter := b.system_clock_counter + 5 + 6 * 256,
                 oam_writes := b.oam_writes ++ (List.range 256).map
                   (fun t => b.cpu_mem ((b.dma_page <<< 8) ||| t)) } := by
      rw [hcomp, show (1536 : Nat) = 6 * 256 from rfl, hrun, hpre]
      simp [ha]
    refine ⟨by rw [hfin], by rw [hfin], by rw [hfin], ?_, ?_⟩
    · rw [show b.clockN (1541 + 1) = (b.clockN 1541).clock from rfl, hfin,
        clock_cpu _ (by simp [hc]; try omega) (by simp) (by simp [hirq])]
    · rw [hfc, if_pos hk]
      decide
  · have hk1 : k % 2 = 1 := by omega
    have hn' : n = 1544 := by rw [hn, if_neg hk]
    subst hn'
    have hcomp : b.clockN 1544 = (b.clockN 8).clockN 1536 := by
      rw [← clockN_add]
    have hpre := dma_prefix_odd b k hk1 hc ht hd hirq
    have hrun := dma_run 256 ((b.clockN 8)) (by omega)
      (by rw [hpre]; simp [ha]) (by rw [hpre]; simp [hc]; omega)
      (by rw [hpre]; simp [ht]) (by rw [hpre])
      (by rw [hpre]; simp [hirq]) (by rw [hpre]; simp [hp40])
    have hfin : b.clockN 1544 =
        { b with dma_dummy := true, dma_transfer := false, dma_addr := 0,
                 dma_data := b.cpu_mem ((b.dma_page <<< 8) ||| 255),
                 system_clock_counter := b.system_clock_counter + 8 + 6 * 256,
                 oam_writes := b.oam_writes ++ (List.range 256).map
                   (fun t => b.cpu_mem ((b.dma_page <<< 8) ||| t)) } := by
      rw [hcomp, show (1536 : Nat) = 6 * 256 from rfl, hrun, hpre]
      simp [ha]
    refine ⟨by rw [hfin], by rw [hfin], by rw [hfin], ?_, ?_⟩
    · rw [show b.clockN (1544 + 1) = (b.clockN 1544).clock from rfl, hfin,
        clock_cpu _ (by simp [hc]; try omega) (by simp) (by simp [hirq])]
    · rw [hfc, if_neg hk]
      decide

lemma clock_irq_forward (b : Bus) (h : b.cart_irq = true) :
    (b.clock).cart_irq = false ∧ (b.clock).irq_calls = b.irq_calls + 1 := by
  unfold Bus.clock
  by_cases h1 : b.system_clock_counter % 3 = 0 <;>
  by_cases h2 : b.dma_transfer = true <;>
  by_cases h3 : b.dma_dummy = true <;>
  by_cases h4 : b.system_clock_counter % 2 = 1 <;>
  by_cases h5 : b.system_clock_counter % 2 = 0 <;>
  by_cases h6 : (b.dma_addr + 1) % 256 = 0 <;>
  by_cases h7 : (b.dma_page <<< 8 ||| b.dma_addr) = 0x4016 <;>
  by_cases h8 : (b.dma_page <<< 8 ||| b.dma_addr) = 0x4017 <;>
  simp [Bus.cpu_read, h, h1, h2, h3, h4, h5, h6, h7, h8]

end Bus

/-- Witness for C3 at a concrete bus: the DMA started on CPU cycle 0
finishes within 513 CPU slots (1541 system ticks), has copied exactly
the 256 bytes of page 2, and never clocked the CPU. -/
theorem C3_oam_dma_witness :
    (busDma.clockN 1541).dma_transfer = false
    ∧ (busDma.clockN 1541).oam_writes
        = (List.range 256).map (fun i => busDma.cpu_mem ((busDma.dma_page <<< 8) ||| i))
    ∧ (busDma.clockN 1541).cpu_clocks = 0
    ∧ (busDma.clockN 1542).cpu_clocks = 1 := by
  obtain ⟨ha, hb, hc, hd, he⟩ :=
    Bus.C3_oam_dma busDma 0 1541 (by decide) rfl rfl rfl rfl rfl (by decide)
  exact ⟨ha, by simpa using hb, hc, hd⟩

/-- Claim C8, amended: a write to 0x4016 (whatever its data byte — the
strobe level is not latched) reloads both controller shift registers
from the controller state; each read of 0x4016 or 0x4017 returns bit 7
of the corresponding shift register as 0 or 1 and shifts it left; so
the first read after a strobe write returns the A-button state, while
later reads return the following bits whether or not the strobe was
left high. -/
theorem C8_controller_reads (b : Bus) (d : Nat) :
    ((b.cpu_write 0x4016 d).controller_shift0 = b.controller_state0
      ∧ (b.cpu_write 0x4016 d).controller_shift1 = b.controller_state1)
    ∧ ((b.cpu_read 0x4016).2 = (if 0 < b.controller_shift0 &&& 0x80 then 1 else 0)
      ∧ (b.cpu_read 0x4016).1.controller_shift0 = (b.controller_shift0 <<< 1) % 256)
    ∧ ((b.cpu_read 0x4017).2 = (if 0 < b.controller_shift1 &&& 0x80 then 1 else 0)
      ∧ (b.cpu_read 0x4017).1.controller_shift1 = (b.controller_shift1 <<< 1) % 256)
    ∧ (((b.cpu_write 0x4016 d).cpu_read 0x4016).2
        = (if 0 < b.controller_state0 &&& 0x80 then 1 else 0)) := by
  refine ⟨⟨?_, ?_⟩, ⟨?_, ?_⟩, ⟨?_, ?_⟩, ?_⟩ <;>
    simp [Bus.cpu_read, Bus.cpu_write]

/-- Counterexample to C8 as stated: with only the A button held, after
writing 1 to 0x4016 (strobe high, never released), the second read of
0x4016 returns 0, not the A-button state 1. -/
theorem C8_counterexample :
    ¬ ((((busA.cpu_write 0x4016 1).cpu_read 0x4016).1.cpu_read 0x4016).2
        = (if 0 < busA.controller_state0 &&& 0x80 then 1 else 0)) := by
  decide

/-- Claim C4: from latch 0x10, IRQ enabled, counter 0, the 17th
scanline pulse (and no earlier one) asserts the mapper IRQ; in general
the counter reloads from the latch when the reload flag is set or the
counter is zero and decrements otherwise, a 1-to-0 decrement with IRQ
enabled asserts the IRQ, and a bus tick that sees the cartridge IRQ
line asserted clears it and invokes cpu.irq(). -/
theorem C4_mmc3_scanline_irq :
    ((mmc3Irq16.scanlineN 17).irq_state = true
      ∧ ∀ j < 17, (mmc3Irq16.scanlineN j).irq_state = false)
    ∧ (∀ m : Mapper004, m.irq_reload = true ∨ m.irq_counter = 0 →
        (m.scanline).irq_counter = m.irq_latch ∧ (m.scanline).irq_reload = false)
    ∧ (∀ m : Mapper004, m.irq_reload = false → m.irq_counter ≠ 0 →
        (m.scanline).irq_counter = m.irq_counter - 1)
    ∧ (∀ m : Mapper004, m.irq_reload = false → m.irq_counter = 1 →
        m.irq_enable = true → (m.scanline).irq_state = true)
    ∧ (∀ b : Bus, b.cart_irq = true →
        (b.clock).cart_irq = false ∧ (b.clock).irq_calls = b.irq_calls + 1) := by
  refine ⟨⟨by decide, by decide⟩, fun m h => ?_, fun m h1 h2 => ?_,
    fun m h1 h2 h3 => ?_, fun b h => Bus.clock_irq_forward b h⟩
  · have hcond : m.irq_reload = true ∨ m.irq_counter = 0 := h
    constructor <;>
      · simp only [Mapper004.scanline, if_pos hcond]
        split <;> rfl
  · have hcond : ¬ (m.irq_reload = true ∨ m.irq_counter = 0) := by
      simp [h1, h2]
    simp only [Mapper004.scanline, if_neg hcond]
    split <;> rfl
  · have hcond : ¬ (m.irq_reload = true ∨ m.irq_counter = 0) := by
      simp [h1, h2]
    simp only [Mapper004.scanline, Mapper004.irq_state, if_neg hcond]
    simp [h2, h3]

/-- Witness for C4 at concrete inputs: the reload rule, the decrement
rule and the 1-to-0 assertion evaluated on mmc3Irq16-like states, and
the bus forwarding the cartridge IRQ on a concrete bus. -/
theorem C4_mmc3_scanline_irq_witness :
    ((mmc3Irq16.scanline).irq_counter = 0x10
      ∧ ({ mmc3Irq16 with irq_counter := 5 } : Mapper004).scanline.irq_counter = 4
      ∧ ({ mmc3Irq16 with irq_counter := 1 } : Mapper004).scanline.irq_state = true)
    ∧ (busIrqPending.clock).cart_irq = false
    ∧ (busIrqPending.clock).irq_calls = 1 :=
  ⟨⟨(C4_mmc3_scanline_irq.2.1 mmc3Irq16 (Or.inr rfl)).1,
    C4_mmc3_scanline_irq.2.2.1 { mmc3Irq16 with irq_counter := 5 } rfl (by decide),
    C4_mmc3_scanline_irq.2.2.2.1 { mmc3Irq16 with irq_counter := 1 } rfl rfl rfl⟩,
   (C4_mmc3_scanline_irq.2.2.2.2 busIrqPending rfl).1,
   (C4_mmc3_scanline_irq.2.2.2.2 busIrqPending rfl).2⟩

/-- Claim C10: for every mapper-4 state with at least one PRG bank and
every address in 0x8000..0xFFFF, cpu_read reduces the selected 8 KiB
bank modulo 2*prg_banks, so the PRG ROM offset is below
prg_banks*16384 and the read returns the ROM byte at that offset. -/
theorem C10_mmc3_prg_read_bounds (m : Mapper004) (addr : Nat) (h1 : 0x8000 ≤ addr)
    (h2 : addr ≤ 0xFFFF) (hp : 1 ≤ m.prg_banks) :
    m.prg_mapped_addr addr
      = (m.prg_bank ((addr - 0x8000) / 0x2000) % (2 * m.prg_banks)) * 0x2000
        + (addr &&& 0x1FFF)
    ∧ m.prg_mapped_addr addr < m.prg_banks * 16384
    ∧ ∀ prg_rom : Nat → Nat,
        m.cpu_read addr prg_rom = some (prg_rom (m.prg_mapped_addr addr)) := by
  have hram : ¬ (0x6000 ≤ addr ∧ addr ≤ 0x7FFF) := by omega
  have hrom : 0x8000 ≤ addr ∧ addr ≤ 0xFFFF := ⟨h1, h2⟩
  have hb : m.prg_bank ((addr - 0x8000) / 0x2000) % (m.prg_banks * 2) < m.prg_banks * 2 :=
    Nat.mod_lt _ (by omega)
  have hr : addr &&& 0x1FFF < 8192 :=
    Nat.and_lt_two_pow addr (by norm_num : (0x1FFF : Nat) < 2 ^ 13)
  refine ⟨by rw [Mapper004.prg_mapped_addr, Nat.mul_comm 2 m.prg_banks], ?_, fun prg_rom => ?_⟩
  · rw [Mapper004.prg_mapped_addr]
    omega
  · simp [Mapper004.cpu_read, hram, hrom]

/-- Witness for C10 at a concrete state: with 2 PRG banks (32 KiB) and
every bank register set to 0xC7, a read at 0xFFFF stays below 32768. -/
theorem C10_mmc3_prg_read_bounds_witness :
    mmc3Wild.prg_mapped_addr 0xFFFF < mmc3Wild.prg_banks * 16384
    ∧ mmc3Wild.cpu_read 0xFFFF (fun a => a % 256)
        = some ((fun a => a % 256) (mmc3Wild.prg_mapped_addr 0xFFFF)) :=
  ⟨(C10_mmc3_prg_read_bounds mmc3Wild 0xFFFF (by decide) (by decide) (by decide)).2.1,
   (C10_mmc3_prg_read_bounds mmc3Wild 0xFFFF (by decide) (by decide) (by decide)).2.2 _⟩

lemma and_flag_congr (x y i : Nat) (h : x.testBit i = y.testBit i) :
    x &&& 2 ^ i = y &&& 2 ^ i := by
  rw [Nat.and_two_pow, Nat.and_two_pow, h]

/-- Claim C5, amended: a PPUSTATUS read returns the three status flags
(bits 5-7: sprite overflow, sprite-zero hit, vblank) over the low 5
bits of the internal read data buffer — not of the last value written
to a PPU register: no register write changes the buffer, which is
refilled only by a PPUDATA (register 7) read from ppu_read(v). -/
theorem C5_ppustatus_low_bits (p : PPU) :
    ((p.cpu_read 2).2 = (p.status_reg &&& 0xE0) ||| (p.data_buffer &&& 0x1F))
    ∧ ((p.cpu_read 2).2 &&& 0x20 = p.status_reg &&& 0x20
      ∧ (p.cpu_read 2).2 &&& 0x40 = p.status_reg &&& 0x40
      ∧ (p.cpu_read 2).2 &&& 0x80 = p.status_reg &&& 0x80)
    ∧ (∀ reg data : Nat, reg < 8 → (p.cpu_write reg data).data_buffer = p.data_buffer)
    ∧ ((p.cpu_read 7).1.data_buffer = p.ppu_mem (p.vram_addr &&& 0x3FFF)) := by
  have hand : ∀ x : Nat, x < 8 → x &&& 7 = x := by decide
  have hread : (p.cpu_read 2).2 = (p.status_reg &&& 0xE0) ||| (p.data_buffer &&& 0x1F) := by
    simp [PPU.cpu_read, hand 2 (by omega)]
  have hbit : ∀ i : Nat, 5 ≤ i → i < 8 →
      ((p.status_reg &&& 0xE0) ||| (p.data_buffer &&& 0x1F)).testBit i
        = p.status_reg.testBit i := by
    intro i h5 h8
    interval_cases i <;>
      simp [Nat.testBit_lor, Nat.testBit_land,
        (by decide : Nat.testBit 0xE0 5 = true), (by decide : Nat.testBit 0x1F 5 = false),
        (by decide : Nat.testBit 0xE0 6 = true), (by decide : Nat.testBit 0x1F 6 = false),
        (by decide : Nat.testBit 0xE0 7 = true), (by decide : Nat.testBit 0x1F 7 = false)]
  refine ⟨hread, ⟨?_, ?_, ?_⟩, fun reg data hreg => ?_,
    by simp [PPU.cpu_read, hand 7 (by omega)]⟩
  · rw [hread, show (0x20 : Nat) = 2 ^ 5 from rfl]
    exact and_flag_congr _ _ 5 (hbit 5 (by omega) (by omega))
  · rw [hread, show (0x40 : Nat) = 2 ^ 6 from rfl]
    exact and_flag_congr _ _ 6 (hbit 6 (by omega) (by omega))
  · rw [hread, show (0x80 : Nat) = 2 ^ 7 from rfl]
    exact and_flag_congr _ _ 7 (hbit 7 (by omega) (by omega))
  · interval_cases reg <;> by_cases hl : p.address_latch = false <;>
      simp [PPU.cpu_write, hand, hl]

/-- Witness for C5 at a concrete state: after writing 0x1F to PPUCTRL
from reset, a PPUSTATUS read still has zero low bits (the buffer is
untouched), and a PPUDATA read refills the buffer from PPU memory. -/
theorem C5_ppustatus_low_bits_witness :
    ((ppuReset.cpu_write 0 0x1F).cpu_read 2).2
      = (((ppuReset.cpu_write 0 0x1F).status_reg &&& 0xE0)
        ||| ((ppuReset.cpu_write 0 0x1F).data_buffer &&& 0x1F))
    ∧ (ppuReset.cpu_write 0 0x1F).data_buffer = ppuReset.data_buffer :=
  ⟨(C5_ppustatus_low_bits ((ppuReset.cpu_write 0 0x1F))).1,
   (C5_ppustatus_low_bits ppuReset).2.2.1 0 0x1F (by omega)⟩

/-- Counterexample to C5 as stated: write 0x1F to a PPU register
(PPUCTRL) from reset; the next PPUSTATUS read returns 0 in its low 5
bits, not the 0x1F just written. -/
theorem C5_counterexample :
    ¬ (((ppuReset.cpu_write 0 0x1F).cpu_read 2).2 &&& 0x1F = 0x1F) := by
  decide

/-- Claim C6, amended: when the declared CHR ROM size exceeds the bytes
remaining in the file (and the PRG ROM fits), loading still succeeds,
but the CHR store is truncated to exactly the remaining bytes of the
file — it is not zero-filled up to the declared size. -/
theorem C6_truncated_chr (data : List Nat) (dirty : Bool) (off : Nat)
    (hoff : off = 16 + (if data.getD 6 0 &&& 0x04 ≠ 0 then 512 else 0)
      + data.getD 4 0 * 16384)
    (hprg : off ≤ data.length)
    (hchr0 : data.getD 5 0 ≠ 0)
    (hover : data.length < off + data.getD 5 0 * 8192) :
    (load_ines data dirty).isSome = true
    ∧ (load_ines data dirty).map (fun c => c.chr_rom) = some (data.drop off)
    ∧ (load_ines data dirty).map (fun c => c.chr_rom.length)
        = some (data.length - off)
    ∧ (load_ines data dirty).map (fun c => c.chr_rom.length)
        ≠ some (data.getD 5 0 * 8192) := by
  have hnofail : ¬ (data.length < 16 + (if data.getD 6 0 &&& 0x04 ≠ 0 then 512 else 0)
      + data.getD 4 0 * 16384) := by omega
  have htrunc : data.length < 16 + (if data.getD 6 0 &&& 0x04 ≠ 0 then 512 else 0)
      + data.getD 4 0 * 16384 + data.getD 5 0 * 8192 := by omega
  have htake : (data.drop off).take (data.length - off) = data.drop off := by
    rw [← List.length_drop]
    exact List.take_length _
  have hchr : (load_ines data dirty).map (fun c => c.chr_rom) = some (data.drop off) := by
    simp only [load_ines]
    rw [if_neg hnofail]
    simp only [if_neg hchr0]
    rw [if_pos (by omega : data.length
      < 16 + (if data.getD 6 0 &&& 0x04 ≠ 0 then 512 else 0) + data.getD 4 0 * 16384
        + data.getD 5 0 * 8192)]
    rw [← hoff, htake]
    rfl
  refine ⟨?_, hchr, ?_, ?_⟩
  · simp only [load_ines]
    rw [if_neg hnofail]
    rfl
  · have h2 : (load_ines data dirty).map (fun c => c.chr_rom.length)
        = ((load_ines data dirty).map (fun c => c.chr_rom)).map (fun l => l.length) := by
      cases load_ines data dirty <;> rfl
    rw [h2, hchr]
    simp [List.length_drop]
  · have h2 : (load_ines data dirty).map (fun c => c.chr_rom.length)
        = ((load_ines data dirty).map (fun c => c.chr_rom)).map (fun l => l.length) := by
      cases load_ines data dirty <;> rfl
    rw [h2, hchr]
    intro hcontra
    have hlen : (List.drop off data).length = data.getD 5 0 * 8192 :=
      Option.some.inj hcontra
    rw [List.length_drop] at hlen
    omega

/-- Witness for C6 at the concrete short image: loading succeeds and
the CHR store is the 4 trailing file bytes, not 8192 zero-padded
bytes. -/
theorem C6_truncated_chr_witness :
    (load_ines inesShortChr false).isSome = true
    ∧ (load_ines inesShortChr false).map (fun c => c.chr_rom)
        = some (inesShortChr.drop 16)
    ∧ (load_ines inesShortChr false).map (fun c => c.chr_rom.length)
        ≠ some (inesShortChr.getD 5 0 * 8192) :=
  ⟨(C6_truncated_chr inesShortChr false 16 (by decide) (by decide) (by decide) (by decide)).1,
   (C6_truncated_chr inesShortChr false 16 (by decide) (by decide) (by decide) (by decide)).2.1,
   (C6_truncated_chr inesShortChr false 16 (by decide) (by decide) (by decide) (by decide)).2.2.2⟩

/-- Counterexample to C6 as stated: for the short image the CHR store
does not have the declared 8192-byte size (it has 4 bytes). -/
theorem C6_counterexample :
    ¬ ((load_ines inesShortChr false).map (fun c => c.chr_rom.length)
        = some (inesShortChr.getD 5 0 * 8192)) := by
  decide

end Nes
